import Mathlib

/-!
Shallow embedding of the review-voting logic of `Server/server.js`
(routes `POST /api/reviews`, `POST /api/reviews/usefulness`,
`POST /api/reviews/:id/vote`), together with proofs of the spec's
claims about it.

Conventions of the embedding:
* A Mongoose `Map` field (`review.userVotes`) is an association list
  `List (String × String)` with pairwise-distinct keys; `get`/`set`/`delete`
  are modelled by `votesGet`/`votesSet`/`votesDelete`.
* JavaScript numbers used as counters are modelled as `Int` (so that a
  decrement below zero is representable and claims about non-negativity
  are non-trivial).
* An optional request-body field is `Option _`; JavaScript truthiness of
  a string field (`!x` is true for `undefined`/`null`/`""`) is `falsyStr`,
  of a numeric field (`!x` is true for `undefined`/`null`/`0`) is `falsyNum`.
* A handler returns `Except VoteError Review`: `.ok` carries the review as
  saved, `.error` means the handler returned an HTTP error before calling
  `save`, so the stored state is unchanged.
-/

/-- The error taxonomy of the review endpoints: HTTP 400 for bad input,
404 for a review that does not exist, 400 `No vote to remove`. -/
inductive VoteError where
  | invalidInput
  | notFound
  | nothingToRemove
  deriving DecidableEq, Repr

/-- A review document, with the fields `server.js` reads and writes.
`userVotes` maps a user UUID to the stored vote string. -/
structure Review where
  id : String
  title : String
  content : String
  rating : Int
  productName : String
  reviewType : String
  thumbsUp : Int
  thumbsDown : Int
  userVotes : List (String × String)
  deriving DecidableEq, Repr

/-- Model of `review.userVotes.get(k)`: the value at key `k`, if present. -/
def votesGet (m : List (String × String)) (k : String) : Option String :=
  match m with
  | [] => none
  | (k', v) :: rest => if k' = k then some v else votesGet rest k

/-- Model of `review.userVotes.set(k, v)`: overwrite the entry at `k`, or append one. -/
def votesSet (m : List (String × String)) (k v : String) : List (String × String) :=
  match m with
  | [] => [(k, v)]
  | (k', v') :: rest => if k' = k then (k, v) :: rest else (k', v') :: votesSet rest k v

/-- Model of `review.userVotes.delete(k)`: drop the entry at `k`. -/
def votesDelete (m : List (String × String)) (k : String) : List (String × String) :=
  match m with
  | [] => []
  | (k', v') :: rest => if k' = k then votesDelete rest k else (k', v') :: votesDelete rest k

/-- Number of entries of `m` holding the value `v`. -/
def countVal (m : List (String × String)) (v : String) : Nat :=
  match m with
  | [] => 0
  | (_, v') :: rest => (if v' = v then 1 else 0) + countVal rest v

/-- JavaScript truthiness test `!x` for an optional string field. -/
def falsyStr : Option String → Bool
  | none => true
  | some s => s = ""

/-- JavaScript truthiness test `!x` for an optional numeric field. -/
def falsyNum : Option Int → Bool
  | none => true
  | some n => n = 0

/-- The decrement applied to the counters for an outgoing vote `cv`:
`if (cv === 'like') review.thumbsUp -= 1; else if (cv === 'dislike')
review.thumbsDown -= 1;`. -/
def decOld (r : Review) (cv : String) : Review :=
  if cv = "like" then { r with thumbsUp := r.thumbsUp - 1 }
  else if cv = "dislike" then { r with thumbsDown := r.thumbsDown - 1 }
  else r

/-- The increment applied to the counters for an incoming vote `v`:
`if (v === 'like') review.thumbsUp += 1; else if (v === 'dislike')
review.thumbsDown += 1;`. -/
def incNew (r : Review) (v : String) : Review :=
  if v = "like" then { r with thumbsUp := r.thumbsUp + 1 }
  else if v = "dislike" then { r with thumbsDown := r.thumbsDown + 1 }
  else r

/-- Lines 454-504 of `server.js`: the state change of
`POST /api/reviews/usefulness` on one loaded review, after input
validation. `vtype` is the request's `type` field. A stored vote value of
`""` is JavaScript-falsy, so `else if (currentVote)` treats it like no
vote, exactly as the source does. -/
def usefulnessCore (review : Review) (userUUID vtype : String) :
    Except VoteError Review :=
  let currentVote := votesGet review.userVotes userUUID
  if vtype = "remove" then
    match currentVote with
    | none => .error .nothingToRemove
    | some cv =>
      if cv = "" then .error .nothingToRemove
      else .ok { decOld review cv with
                   userVotes := votesDelete review.userVotes userUUID }
  else
    match currentVote with
    | some cv =>
      if cv = "" then
        .ok { incNew review vtype with
                userVotes := votesSet review.userVotes userUUID vtype }
      else if cv = vtype then
        .ok { decOld review vtype with
                userVotes := votesDelete review.userVotes userUUID }
      else
        .ok { incNew (decOld review cv) vtype with
                userVotes := votesSet review.userVotes userUUID vtype }
    | none =>
      .ok { incNew review vtype with
              userVotes := votesSet review.userVotes userUUID vtype }

/-- Model of `Review.findById(reviewId)`: Mongoose turns `findById(undefined)` into
`findOne({_id: null})`, which matches no document, so a missing id yields
`null`; otherwise the document with that id is looked up. -/
def findById (store : List Review) (reviewId : Option String) : Option Review :=
  match reviewId with
  | none => none
  | some rid => store.find? (fun r => r.id = rid)

/-- Lines 441-509 of `server.js`: the whole `POST /api/reviews/usefulness`
handler. Validation `if (!userUUID || !type ||
!['like','dislike','remove'].includes(type))` runs first; only then is the
review loaded (404 when absent) and the core transition applied. -/
def usefulnessHandler (store : List Review)
    (reviewId userUUID vtype : Option String) : Except VoteError Review :=
  if falsyStr userUUID || falsyStr vtype ||
      !(["like", "dislike", "remove"].contains (vtype.getD "")) then
    .error .invalidInput
  else
    match findById store reviewId with
    | none => .error .notFound
    | some review => usefulnessCore review (userUUID.getD "") (vtype.getD "")

/-- Lines 511-533 of `server.js`: the `POST /api/reviews/:id/vote` handler.
`id` is a path parameter so it is always a string; `voteType` comes from the
body. The counters are bumped with no look at `userVotes`. -/
def simpleVoteHandler (store : List Review) (id : String)
    (voteType : Option String) : Except VoteError Review :=
  match store.find? (fun r => r.id = id) with
  | none => .error .notFound
  | some review =>
    if voteType = some "like" then
      .ok { review with thumbsUp := review.thumbsUp + 1 }
    else if voteType = some "dislike" then
      .ok { review with thumbsDown := review.thumbsDown + 1 }
    else .error .invalidInput

/-- Modelled from the spec: the Mongoose schema `models/Review` is not part
of `src/`; per the spec (§3), `thumbsUp` and `thumbsDown` initialize to 0
and `userVotes` to the empty map. `server.js` line 425 passes `title`,
`content`, `rating`, `productName` and `reviewType: 'product'`; `id` is
assigned by the store. -/
def mkReview (id title content productName : String) (rating : Int) : Review :=
  { id := id, title := title, content := content, rating := rating,
    productName := productName, reviewType := "product",
    thumbsUp := 0, thumbsDown := 0, userVotes := [] }

/-- Lines 418-439 of `server.js`: the `POST /api/reviews` handler.
`if (!title || !content || !rating || !product)` rejects the request with
HTTP 400 before any document is built. -/
def createReviewHandler (id : String) (title content product : Option String)
    (rating : Option Int) : Except VoteError Review :=
  if falsyStr title || falsyStr content || falsyNum rating ||
      falsyStr product then
    .error .invalidInput
  else
    .ok (mkReview id (title.getD "") (content.getD "") (product.getD "")
          (rating.getD 0))

/-- The count invariant of the spec (§3): each counter equals the number of
`userVotes` entries of the matching value. -/
def validCounts (r : Review) : Prop :=
  r.thumbsUp = (countVal r.userVotes "like" : Int) ∧
  r.thumbsDown = (countVal r.userVotes "dislike" : Int)

instance (r : Review) : Decidable (validCounts r) := by
  unfold validCounts; exact inferInstance

/-- Structural well-formedness of a JavaScript `Map` represented as an
association list: keys are pairwise distinct. Every state representable in
the source satisfies this. -/
def wfVotes (r : Review) : Prop := (r.userVotes.map Prod.fst).Nodup

instance (r : Review) : Decidable (wfVotes r) := by
  unfold wfVotes; exact inferInstance

/-- Run a sequence of usefulness requests `(userUUID, type)` against one
review. A request the handler rejects leaves the stored state unchanged
(the source returns before `save`). -/
def runOps (r : Review) : List (String × String) → Review
  | [] => r
  | (u, t) :: rest =>
    match usefulnessCore r u t with
    | .ok r' => runOps r' rest
    | .error _ => runOps r rest

deriving instance DecidableEq for Except

/-! ### Lemmas about the `userVotes` map operations -/

theorem votesGet_set_self (m : List (String × String)) (k v : String) :
    votesGet (votesSet m k v) k = some v := by
  induction m with
  | nil => simp [votesSet, votesGet]
  | cons p rest ih =>
    obtain ⟨k', v'⟩ := p
    by_cases h : k' = k <;> simp [votesSet, votesGet, h, ih]

theorem votesGet_set_ne (m : List (String × String)) (k v k' : String)
    (h : k' ≠ k) : votesGet (votesSet m k v) k' = votesGet m k' := by
  induction m with
  | nil => simp [votesSet, votesGet, h.symm]
  | cons p rest ih =>
    obtain ⟨k₀, v₀⟩ := p
    by_cases h0 : k₀ = k
    · subst h0
      simp [votesSet, votesGet, h.symm]
    · simp [votesSet, votesGet, h0]
      by_cases h1 : k₀ = k' <;> simp [h1, ih]

theorem votesGet_delete_self (m : List (String × String)) (k : String) :
    votesGet (votesDelete m k) k = none := by
  induction m with
  | nil => simp [votesDelete, votesGet]
  | cons p rest ih =>
    obtain ⟨k₀, v₀⟩ := p
    by_cases h : k₀ = k <;> simp [votesDelete, votesGet, h, ih]

theorem votesGet_delete_ne (m : List (String × String)) (k k' : String)
    (h : k' ≠ k) : votesGet (votesDelete m k) k' = votesGet m k' := by
  induction m with
  | nil => simp [votesDelete]
  | cons p rest ih =>
    obtain ⟨k₀, v₀⟩ := p
    by_cases h0 : k₀ = k
    · subst h0
      have : ¬ k₀ = k' := fun hh => h (hh ▸ rfl)
      simp [votesDelete, votesGet, this, ih]
    · simp [votesDelete, votesGet, h0]
      by_cases h1 : k₀ = k' <;> simp [h1, ih]

theorem votesGet_eq_none (m : List (String × String)) (k : String) :
    votesGet m k = none ↔ k ∉ m.map Prod.fst := by
  induction m with
  | nil => simp [votesGet]
  | cons p rest ih =>
    obtain ⟨k₀, v₀⟩ := p
    by_cases h : k₀ = k
    · subst h; simp [votesGet]
    · have h' : ¬ k = k₀ := fun hh => h hh.symm
      simp [votesGet, h, h', ih]

theorem votesDelete_get_none (m : List (String × String)) (k : String)
    (h : votesGet m k = none) : votesDelete m k = m := by
  induction m with
  | nil => simp [votesDelete]
  | cons p rest ih =>
    obtain ⟨k₀, v₀⟩ := p
    by_cases h0 : k₀ = k
    · simp [votesGet, h0] at h
    · simp [votesGet, h0] at h
      simp [votesDelete, h0, ih h]

theorem votesSet_get_none (m : List (String × String)) (k v : String)
    (h : votesGet m k = none) : votesSet m k v = m ++ [(k, v)] := by
  induction m with
  | nil => simp [votesSet]
  | cons p rest ih =>
    obtain ⟨k₀, v₀⟩ := p
    by_cases h0 : k₀ = k
    · simp [votesGet, h0] at h
    · simp [votesGet, h0] at h
      simp [votesSet, h0, ih h]

theorem countVal_append (m₁ m₂ : List (String × String)) (v : String) :
    countVal (m₁ ++ m₂) v = countVal m₁ v + countVal m₂ v := by
  induction m₁ with
  | nil => simp [countVal]
  | cons p rest ih => simp [countVal, ih]; omega

theorem countVal_set (m : List (String × String)) (k v w v' : String)
    (h : votesGet m k = some w) :
    countVal (votesSet m k v) v' + (if w = v' then 1 else 0) =
      countVal m v' + (if v = v' then 1 else 0) := by
  induction m with
  | nil => simp [votesGet] at h
  | cons p rest ih =>
    obtain ⟨k₀, v₀⟩ := p
    by_cases h0 : k₀ = k
    · simp [votesGet, h0] at h
      subst h
      simp [votesSet, h0, countVal]
      omega
    · simp [votesGet, h0] at h
      simp [votesSet, h0, countVal]
      have := ih h
      omega

theorem countVal_delete (m : List (String × String)) (k w v' : String)
    (hnd : (m.map Prod.fst).Nodup) (h : votesGet m k = some w) :
    countVal (votesDelete m k) v' + (if w = v' then 1 else 0) =
      countVal m v' := by
  induction m with
  | nil => simp [votesGet] at h
  | cons p rest ih =>
    obtain ⟨k₀, v₀⟩ := p
    simp only [List.map_cons, List.nodup_cons] at hnd
    by_cases h0 : k₀ = k
    · simp [votesGet, h0] at h
      subst h
      subst h0
      have hrest : votesGet rest k₀ = none := by
        rw [votesGet_eq_none]; exact hnd.1
      simp [votesDelete, votesDelete_get_none rest k₀ hrest, countVal]
      omega
    · simp [votesGet, h0] at h
      simp [votesDelete, h0, countVal]
      have := ih hnd.2 h
      omega

theorem keys_set_get_some (m : List (String × String)) (k v w : String)
    (h : votesGet m k = some w) :
    (votesSet m k v).map Prod.fst = m.map Prod.fst := by
  induction m with
  | nil => simp [votesGet] at h
  | cons p rest ih =>
    obtain ⟨k₀, v₀⟩ := p
    by_cases h0 : k₀ = k
    · subst h0; simp [votesSet]
    · simp [votesGet, h0] at h
      simp [votesSet, h0, ih h]

theorem votesDelete_sublist (m : List (String × String)) (k : String) :
    List.Sublist (votesDelete m k) m := by
  induction m with
  | nil => simp [votesDelete]
  | cons p rest ih =>
    obtain ⟨k₀, v₀⟩ := p
    by_cases h0 : k₀ = k
    · simp only [votesDelete, if_pos h0]
      exact List.Sublist.cons _ ih
    · simp only [votesDelete, if_neg h0]
      exact List.Sublist.cons₂ _ ih

theorem nodup_keys_set (m : List (String × String)) (k v : String)
    (hnd : (m.map Prod.fst).Nodup) :
    ((votesSet m k v).map Prod.fst).Nodup := by
  cases hget : votesGet m k with
  | some w => rw [keys_set_get_some m k v w hget]; exact hnd
  | none =>
    rw [votesSet_get_none m k v hget]
    have hk : k ∉ m.map Prod.fst := (votesGet_eq_none m k).mp hget
    simp [List.nodup_append, hnd, hk]

theorem nodup_keys_delete (m : List (String × String)) (k : String)
    (hnd : (m.map Prod.fst).Nodup) :
    ((votesDelete m k).map Prod.fst).Nodup :=
  hnd.sublist ((votesDelete_sublist m k).map Prod.fst)

/-! ### Field-level facts about the counter updates -/

theorem decOld_thumbsUp (r : Review) (cv : String) :
    (decOld r cv).thumbsUp = r.thumbsUp - (if cv = "like" then 1 else 0) := by
  unfold decOld; split_ifs <;> simp_all

theorem decOld_thumbsDown (r : Review) (cv : String) :
    (decOld r cv).thumbsDown =
      r.thumbsDown - (if cv = "dislike" then 1 else 0) := by
  unfold decOld; split_ifs <;> simp_all

theorem incNew_thumbsUp (r : Review) (v : String) :
    (incNew r v).thumbsUp = r.thumbsUp + (if v = "like" then 1 else 0) := by
  unfold incNew; split_ifs <;> simp_all

theorem incNew_thumbsDown (r : Review) (v : String) :
    (incNew r v).thumbsDown =
      r.thumbsDown + (if v = "dislike" then 1 else 0) := by
  unfold incNew; split_ifs <;> simp_all

theorem decOld_frame (r : Review) (cv : String) :
    (decOld r cv).id = r.id ∧ (decOld r cv).title = r.title ∧
    (decOld r cv).content = r.content ∧ (decOld r cv).rating = r.rating ∧
    (decOld r cv).productName = r.productName ∧
    (decOld r cv).reviewType = r.reviewType ∧
    (decOld r cv).userVotes = r.userVotes := by
  unfold decOld; split_ifs <;> simp

theorem incNew_frame (r : Review) (v : String) :
    (incNew r v).id = r.id ∧ (incNew r v).title = r.title ∧
    (incNew r v).content = r.content ∧ (incNew r v).rating = r.rating ∧
    (incNew r v).productName = r.productName ∧
    (incNew r v).reviewType = r.reviewType ∧
    (incNew r v).userVotes = r.userVotes := by
  unfold incNew; split_ifs <;> simp

theorem decOld_empty (r : Review) : decOld r "" = r := by
  simp [decOld]

/-! ### Inversion of a successful usefulness transition -/

/-- Every successful run of `usefulnessCore` has one of three shapes:
a toggle-off/remove (drop the entry, decrement its counter), an
overwrite of an existing entry (decrement old, increment new, set), or a
fresh vote (increment, set). The toggle and the overwrite both decrement
by the previous value `cv`; a stored falsy value `""` falls under the
overwrite shape because `decOld r "" = r`. -/
theorem usefulnessCore_ok_shape (r r' : Review) (u t : String)
    (hok : usefulnessCore r u t = .ok r') :
    (∃ cv, votesGet r.userVotes u = some cv ∧ cv ≠ "" ∧
        r' = { decOld r cv with userVotes := votesDelete r.userVotes u }) ∨
    (∃ cv, votesGet r.userVotes u = some cv ∧
        r' = { incNew (decOld r cv) t with
                 userVotes := votesSet r.userVotes u t }) ∨
    (votesGet r.userVotes u = none ∧
        r' = { incNew r t with userVotes := votesSet r.userVotes u t }) := by
  cases hget : votesGet r.userVotes u with
  | none =>
    by_cases ht : t = "remove"
    · simp [usefulnessCore, hget, ht] at hok
    · simp [usefulnessCore, hget, ht] at hok
      exact Or.inr (Or.inr ⟨rfl, hok.symm⟩)
  | some cv =>
    by_cases ht : t = "remove"
    · by_cases hcv : cv = ""
      · simp [usefulnessCore, hget, ht, hcv] at hok
      · simp [usefulnessCore, hget, ht, hcv] at hok
        exact Or.inl ⟨cv, rfl, hcv, hok.symm⟩
    · by_cases hcv : cv = ""
      · subst hcv
        simp [usefulnessCore, hget, ht] at hok
        refine Or.inr (Or.inl ⟨"", rfl, ?_⟩)
        rw [decOld_empty]
        exact hok.symm
      · by_cases hct : cv = t
        · subst hct
          simp [usefulnessCore, hget, ht, hcv] at hok
          exact Or.inl ⟨cv, rfl, hcv, hok.symm⟩
        · simp [usefulnessCore, hget, ht, hcv, hct] at hok
          exact Or.inr (Or.inl ⟨cv, rfl, hok.symm⟩)

/-! ### Preservation of the count invariant -/

theorem preserve_delete (r : Review) (u cv : String)
    (hwf : wfVotes r) (hv : validCounts r)
    (hget : votesGet r.userVotes u = some cv) :
    validCounts { decOld r cv with userVotes := votesDelete r.userVotes u } ∧
    wfVotes { decOld r cv with userVotes := votesDelete r.userVotes u } := by
  obtain ⟨h1, h2⟩ := hv
  have hcu := countVal_delete r.userVotes u cv "like" hwf hget
  have hcd := countVal_delete r.userVotes u cv "dislike" hwf hget
  refine ⟨⟨?_, ?_⟩, ?_⟩
  · show (decOld r cv).thumbsUp =
      (countVal (votesDelete r.userVotes u) "like" : Int)
    rw [decOld_thumbsUp, h1]
    by_cases hc : cv = "like" <;> simp [hc] at hcu ⊢ <;> omega
  · show (decOld r cv).thumbsDown =
      (countVal (votesDelete r.userVotes u) "dislike" : Int)
    rw [decOld_thumbsDown, h2]
    by_cases hc : cv = "dislike" <;> simp [hc] at hcd ⊢ <;> omega
  · show ((votesDelete r.userVotes u).map Prod.fst).Nodup
    exact nodup_keys_delete _ _ hwf

theorem preserve_set (r : Review) (u cv t : String)
    (hwf : wfVotes r) (hv : validCounts r)
    (hget : votesGet r.userVotes u = some cv) :
    validCounts { incNew (decOld r cv) t with
                    userVotes := votesSet r.userVotes u t } ∧
    wfVotes { incNew (decOld r cv) t with
                userVotes := votesSet r.userVotes u t } := by
  obtain ⟨h1, h2⟩ := hv
  have hcu := countVal_set r.userVotes u t cv "like" hget
  have hcd := countVal_set r.userVotes u t cv "dislike" hget
  refine ⟨⟨?_, ?_⟩, ?_⟩
  · show (incNew (decOld r cv) t).thumbsUp =
      (countVal (votesSet r.userVotes u t) "like" : Int)
    rw [incNew_thumbsUp, decOld_thumbsUp, h1]
    by_cases hc : cv = "like" <;> by_cases ht : t = "like" <;>
      simp [hc, ht] at hcu ⊢ <;> omega
  · show (incNew (decOld r cv) t).thumbsDown =
      (countVal (votesSet r.userVotes u t) "dislike" : Int)
    rw [incNew_thumbsDown, decOld_thumbsDown, h2]
    by_cases hc : cv = "dislike" <;> by_cases ht : t = "dislike" <;>
      simp [hc, ht] at hcd ⊢ <;> omega
  · show ((votesSet r.userVotes u t).map Prod.fst).Nodup
    exact nodup_keys_set _ _ _ hwf

theorem preserve_new (r : Review) (u t : String)
    (hwf : wfVotes r) (hv : validCounts r)
    (hget : votesGet r.userVotes u = none) :
    validCounts { incNew r t with userVotes := votesSet r.userVotes u t } ∧
    wfVotes { incNew r t with userVotes := votesSet r.userVotes u t } := by
  obtain ⟨h1, h2⟩ := hv
  have hset := votesSet_get_none r.userVotes u t hget
  refine ⟨⟨?_, ?_⟩, ?_⟩
  · show (incNew r t).thumbsUp =
      (countVal (votesSet r.userVotes u t) "like" : Int)
    rw [incNew_thumbsUp, h1, hset, countVal_append]
    by_cases ht : t = "like" <;> simp [ht, countVal]
  · show (incNew r t).thumbsDown =
      (countVal (votesSet r.userVotes u t) "dislike" : Int)
    rw [incNew_thumbsDown, h2, hset, countVal_append]
    by_cases ht : t = "dislike" <;> simp [ht, countVal]
  · show ((votesSet r.userVotes u t).map Prod.fst).Nodup
    exact nodup_keys_set _ _ _ hwf

/-- One successful usefulness transition keeps the count invariant and the
key discipline of the vote map. -/
theorem usefulnessCore_preserves (r r' : Review) (u t : String)
    (hwf : wfVotes r) (hv : validCounts r)
    (hok : usefulnessCore r u t = .ok r') :
    validCounts r' ∧ wfVotes r' := by
  rcases usefulnessCore_ok_shape r r' u t hok with
    ⟨cv, hget, _, hr⟩ | ⟨cv, hget, hr⟩ | ⟨hget, hr⟩
  · rw [hr]; exact preserve_delete r u cv hwf hv hget
  · rw [hr]; exact preserve_set r u cv t hwf hv hget
  · rw [hr]; exact preserve_new r u t hwf hv hget

/-- Any request sequence keeps the count invariant and the key
discipline. -/
theorem runOps_preserves (ops : List (String × String)) (r : Review)
    (hwf : wfVotes r) (hv : validCounts r) :
    validCounts (runOps r ops) ∧ wfVotes (runOps r ops) := by
  induction ops generalizing r with
  | nil => exact ⟨hv, hwf⟩
  | cons op rest ih =>
    obtain ⟨u, t⟩ := op
    cases hstep : usefulnessCore r u t with
    | ok r' =>
      have h := usefulnessCore_preserves r r' u t hwf hv hstep
      simpa [runOps, hstep] using ih r' h.2 h.1
    | error e => simpa [runOps, hstep] using ih r hwf hv

/-! ### Concrete reviews used to instantiate the theorems -/

/-- A review with no votes. -/
def sampleReview : Review :=
  { id := "r1", title := "Great", content := "Works well", rating := 5,
    productName := "PC", reviewType := "product",
    thumbsUp := 0, thumbsDown := 0, userVotes := [] }

/-- A review on which user `"u2"` holds a `like`. -/
def likedReview : Review :=
  { id := "r2", title := "Nice", content := "Solid build", rating := 4,
    productName := "PC", reviewType := "product",
    thumbsUp := 1, thumbsDown := 0, userVotes := [("u2", "like")] }

/-! ### The claims -/

/-- Claim C1: the audited usefulness-vote operation implements exactly the
spec's three-by-three transition table: a first `like`/`dislike` increments
that counter and records the vote, the same vote again toggles it off
(entry cleared, counter down 1), the opposite vote switches (old counter
down 1, new counter up 1, entry rewritten), `remove` on an existing vote
clears it and decrements its counter, and `remove` with no vote errors. -/
theorem usefulness_transition_table (r : Review) (u : String) :
    (votesGet r.userVotes u = none →
      (∃ r1, usefulnessCore r u "like" = .ok r1 ∧
        r1.thumbsUp = r.thumbsUp + 1 ∧ r1.thumbsDown = r.thumbsDown ∧
        votesGet r1.userVotes u = some "like") ∧
      (∃ r1, usefulnessCore r u "dislike" = .ok r1 ∧
        r1.thumbsUp = r.thumbsUp ∧ r1.thumbsDown = r.thumbsDown + 1 ∧
        votesGet r1.userVotes u = some "dislike") ∧
      usefulnessCore r u "remove" = .error .nothingToRemove) ∧
    (votesGet r.userVotes u = some "like" →
      (∃ r1, usefulnessCore r u "like" = .ok r1 ∧
        r1.thumbsUp = r.thumbsUp - 1 ∧ r1.thumbsDown = r.thumbsDown ∧
        votesGet r1.userVotes u = none) ∧
      (∃ r1, usefulnessCore r u "dislike" = .ok r1 ∧
        r1.thumbsUp = r.thumbsUp - 1 ∧ r1.thumbsDown = r.thumbsDown + 1 ∧
        votesGet r1.userVotes u = some "dislike") ∧
      (∃ r1, usefulnessCore r u "remove" = .ok r1 ∧
        r1.thumbsUp = r.thumbsUp - 1 ∧ r1.thumbsDown = r.thumbsDown ∧
        votesGet r1.userVotes u = none)) ∧
    (votesGet r.userVotes u = some "dislike" →
      (∃ r1, usefulnessCore r u "like" = .ok r1 ∧
        r1.thumbsUp = r.thumbsUp + 1 ∧ r1.thumbsDown = r.thumbsDown - 1 ∧
        votesGet r1.userVotes u = some "like") ∧
      (∃ r1, usefulnessCore r u "dislike" = .ok r1 ∧
        r1.thumbsUp = r.thumbsUp ∧ r1.thumbsDown = r.thumbsDown - 1 ∧
        votesGet r1.userVotes u = none) ∧
      (∃ r1, usefulnessCore r u "remove" = .ok r1 ∧
        r1.thumbsUp = r.thumbsUp ∧ r1.thumbsDown = r.thumbsDown - 1 ∧
        votesGet r1.userVotes u = none)) := by
  refine ⟨fun hget => ⟨?_, ?_, ?_⟩, fun hget => ⟨?_, ?_, ?_⟩,
          fun hget => ⟨?_, ?_, ?_⟩⟩
  · exact ⟨{ incNew r "like" with userVotes := votesSet r.userVotes u "like" },
      by simp [usefulnessCore, hget], by simp [incNew_thumbsUp],
      by simp [incNew_thumbsDown], votesGet_set_self _ _ _⟩
  · exact ⟨{ incNew r "dislike" with
        userVotes := votesSet r.userVotes u "dislike" },
      by simp [usefulnessCore, hget], by simp [incNew_thumbsUp],
      by simp [incNew_thumbsDown], votesGet_set_self _ _ _⟩
  · simp [usefulnessCore, hget]
  · exact ⟨{ decOld r "like" with userVotes := votesDelete r.userVotes u },
      by simp [usefulnessCore, hget], by simp [decOld_thumbsUp],
      by simp [decOld_thumbsDown], votesGet_delete_self _ _⟩
  · exact ⟨{ incNew (decOld r "like") "dislike" with
        userVotes := votesSet r.userVotes u "dislike" },
      by simp [usefulnessCore, hget],
      by simp [incNew_thumbsUp, decOld_thumbsUp],
      by simp [incNew_thumbsDown, decOld_thumbsDown],
      votesGet_set_self _ _ _⟩
  · exact ⟨{ decOld r "like" with userVotes := votesDelete r.userVotes u },
      by simp [usefulnessCore, hget], by simp [decOld_thumbsUp],
      by simp [decOld_thumbsDown], votesGet_delete_self _ _⟩
  · exact ⟨{ incNew (decOld r "dislike") "like" with
        userVotes := votesSet r.userVotes u "like" },
      by simp [usefulnessCore, hget],
      by simp [incNew_thumbsUp, decOld_thumbsUp],
      by simp [incNew_thumbsDown, decOld_thumbsDown],
      votesGet_set_self _ _ _⟩
  · exact ⟨{ decOld r "dislike" with userVotes := votesDelete r.userVotes u },
      by simp [usefulnessCore, hget], by simp [decOld_thumbsUp],
      by simp [decOld_thumbsDown], votesGet_delete_self _ _⟩
  · exact ⟨{ decOld r "dislike" with userVotes := votesDelete r.userVotes u },
      by simp [usefulnessCore, hget], by simp [decOld_thumbsUp],
      by simp [decOld_thumbsDown], votesGet_delete_self _ _⟩

/-- Concrete instance of the transition table: on a review with no vote by
`"u1"`, `remove` is the `NothingToRemove` error. -/
theorem usefulness_transition_table_check :
    usefulnessCore sampleReview "u1" "remove" = .error .nothingToRemove :=
  ((usefulness_transition_table sampleReview "u1").1 rfl).2.2

/-- Claim C2 counterexample: the simple-increment endpoint is one of the
vote operations offered by the API, it succeeds on `sampleReview`, and it
breaks the count equalities: `thumbsUp` becomes 1 while `userVotes` still
has no `like` entry. -/
theorem simple_vote_breaks_invariant :
    validCounts sampleReview ∧
    simpleVoteHandler [sampleReview] "r1" (some "like") =
      .ok { sampleReview with thumbsUp := 1 } ∧
    ¬ validCounts { sampleReview with thumbsUp := 1 } :=
  ⟨by decide, by rfl, by decide⟩

/-- Claim C2 (amended): the count equalities are preserved by every
sequence of operations of the audited usefulness endpoint (requests the
handler rejects leave the state unchanged); the unaudited simple-increment
endpoint is excluded, since it violates them. -/
theorem usefulness_sequences_preserve_counts (r : Review)
    (ops : List (String × String)) (hwf : wfVotes r) (hv : validCounts r) :
    validCounts (runOps r ops) :=
  (runOps_preserves ops r hwf hv).1

/-- The spec's §8 scenario run end to end: like, dislike, remove, remove
again, starting from the all-zero review; the count equalities hold at the
end. -/
theorem usefulness_sequences_preserve_counts_check :
    validCounts (runOps sampleReview
      [("u1", "like"), ("u1", "dislike"), ("u1", "remove"), ("u1", "remove")]) :=
  usefulness_sequences_preserve_counts sampleReview _ (by decide) (by decide)

/-- Claim C3: starting from a well-formed state satisfying the count
invariant, no single successful audited vote and no request sequence ever
drives `thumbsUp` or `thumbsDown` negative. -/
theorem usefulness_counters_nonneg (r : Review)
    (hwf : wfVotes r) (hv : validCounts r) :
    (∀ u t r', usefulnessCore r u t = .ok r' →
      0 ≤ r'.thumbsUp ∧ 0 ≤ r'.thumbsDown) ∧
    (∀ ops, 0 ≤ (runOps r ops).thumbsUp ∧ 0 ≤ (runOps r ops).thumbsDown) := by
  constructor
  · intro u t r' hok
    obtain ⟨⟨h1, h2⟩, -⟩ := usefulnessCore_preserves r r' u t hwf hv hok
    omega
  · intro ops
    obtain ⟨⟨h1, h2⟩, -⟩ := runOps_preserves ops r hwf hv
    omega

/-- Concrete instance: removing the only `like` of `likedReview` leaves
both counters non-negative. -/
theorem usefulness_counters_nonneg_check :
    0 ≤ (runOps likedReview [("u2", "remove")]).thumbsUp ∧
    0 ≤ (runOps likedReview [("u2", "remove")]).thumbsDown :=
  (usefulness_counters_nonneg likedReview (by decide) (by decide)).2 _

/-- Claim C4 counterexample: a request with `reviewId` missing but a valid
`userUUID` and `type` is answered with `NotFound`, not `InvalidInput`: the
validation at the top of the handler does not look at `reviewId`, and
`findById` of a missing id finds nothing. -/
theorem missing_reviewId_yields_notFound :
    usefulnessHandler [sampleReview] none (some "u1") (some "like") =
      .error .notFound ∧
    usefulnessHandler [sampleReview] none (some "u1") (some "like") ≠
      .error .invalidInput :=
  ⟨by rfl, by decide⟩

/-- Claim C4 (amended): a missing or empty `userUUID` or `type`, or a
`type` outside the three literals, fails with `InvalidInput` before any
state is read or written; a missing `reviewId` with otherwise valid fields
instead fails with `NotFound`, likewise without a state change. -/
theorem usefulness_invalid_input (store : List Review)
    (reviewId userUUID vtype : Option String) :
    ((falsyStr userUUID = true ∨ falsyStr vtype = true ∨
        (["like", "dislike", "remove"].contains (vtype.getD "")) = false) →
      usefulnessHandler store reviewId userUUID vtype =
        .error .invalidInput) ∧
    (falsyStr userUUID = false →
      (["like", "dislike", "remove"].contains (vtype.getD "")) = true →
      usefulnessHandler store none userUUID vtype = .error .notFound) := by
  constructor
  · intro h
    have hcond : (falsyStr userUUID || falsyStr vtype ||
        !(["like", "dislike", "remove"].contains (vtype.getD ""))) = true := by
      rcases h with h | h | h
      · simp [h]
      · simp [h]
      · rw [h]; simp
    unfold usefulnessHandler
    rw [if_pos hcond]
  · intro h1 h2
    have h3 : falsyStr vtype = false := by
      cases vtype with
      | none => exact absurd h2 (by decide)
      | some s =>
        by_cases hs : s = ""
        · subst hs; exact absurd h2 (by decide)
        · simp [falsyStr, hs]
    have hcond : (falsyStr userUUID || falsyStr vtype ||
        !(["like", "dislike", "remove"].contains (vtype.getD ""))) = false := by
      rw [h1, h3, h2]; rfl
    unfold usefulnessHandler
    rw [if_neg (by rw [hcond]; exact Bool.false_ne_true)]
    simp [findById]

/-- Concrete instance: the literal `"upvote"` is rejected as invalid
input. -/
theorem usefulness_invalid_input_check :
    usefulnessHandler [sampleReview] (some "r1") (some "u1") (some "upvote") =
      .error .invalidInput :=
  (usefulness_invalid_input [sampleReview] (some "r1") (some "u1")
    (some "upvote")).1 (Or.inr (Or.inr (by decide)))

/-- Claim C5: `remove` by a user with no recorded vote fails with
`NothingToRemove` (the handler returns before touching the review), and
after a successful `remove` a second `remove` by the same user fails the
same way, so the state after the error equals the state after the first
`remove`. -/
theorem remove_idempotence (r : Review) (u : String) :
    (votesGet r.userVotes u = none →
      usefulnessCore r u "remove" = .error .nothingToRemove) ∧
    (∀ r', usefulnessCore r u "remove" = .ok r' →
      usefulnessCore r' u "remove" = .error .nothingToRemove) := by
  constructor
  · intro hget
    simp [usefulnessCore, hget]
  · intro r' hok
    cases hget : votesGet r.userVotes u with
    | none => simp [usefulnessCore, hget] at hok
    | some cv =>
      by_cases hcv : cv = ""
      · simp [usefulnessCore, hget, hcv] at hok
      · simp [usefulnessCore, hget, hcv] at hok
        have hnone : votesGet r'.userVotes u = none := by
          rw [← hok]
          exact votesGet_delete_self _ _
        simp [usefulnessCore, hnone]

/-- Concrete instance: after `"u2"` removes the `like` from `likedReview`,
a second `remove` is the `NothingToRemove` error. -/
theorem remove_idempotence_check :
    usefulnessCore { likedReview with thumbsUp := 0, userVotes := [] }
      "u2" "remove" = .error .nothingToRemove :=
  (remove_idempotence likedReview "u2").2
    { likedReview with thumbsUp := 0, userVotes := [] } (by decide)

/-- Claim C6 (toggle law): starting with no vote by `u`, `like` followed by
`like` again leaves `u` with no recorded vote and both counters at their
original values. -/
theorem toggle_like_roundtrip (r : Review) (u : String)
    (hget : votesGet r.userVotes u = none) :
    ∃ r1 r2, usefulnessCore r u "like" = .ok r1 ∧
      usefulnessCore r1 u "like" = .ok r2 ∧
      votesGet r2.userVotes u = none ∧
      r2.thumbsUp = r.thumbsUp ∧ r2.thumbsDown = r.thumbsDown := by
  refine ⟨{ incNew r "like" with userVotes := votesSet r.userVotes u "like" },
    { decOld { incNew r "like" with
        userVotes := votesSet r.userVotes u "like" } "like" with
      userVotes := votesDelete (votesSet r.userVotes u "like") u },
    by simp [usefulnessCore, hget],
    by simp [usefulnessCore, votesGet_set_self],
    votesGet_delete_self _ _, ?_, ?_⟩
  · simp [decOld_thumbsUp, incNew_thumbsUp]
  · simp [decOld_thumbsDown, incNew_thumbsDown]

/-- Concrete instance of the toggle law on the all-zero review. -/
theorem toggle_like_roundtrip_check :
    ∃ r1 r2, usefulnessCore sampleReview "u1" "like" = .ok r1 ∧
      usefulnessCore r1 "u1" "like" = .ok r2 ∧
      votesGet r2.userVotes "u1" = none ∧
      r2.thumbsUp = sampleReview.thumbsUp ∧
      r2.thumbsDown = sampleReview.thumbsDown :=
  toggle_like_roundtrip sampleReview "u1" rfl

/-- Claim C7 (switch law): starting with no vote by `u`, `like` followed by
`dislike` records `dislike`, with `thumbsUp` back at its original value and
`thumbsDown` up by one. -/
theorem switch_like_dislike (r : Review) (u : String)
    (hget : votesGet r.userVotes u = none) :
    ∃ r1 r2, usefulnessCore r u "like" = .ok r1 ∧
      usefulnessCore r1 u "dislike" = .ok r2 ∧
      votesGet r2.userVotes u = some "dislike" ∧
      r2.thumbsUp = r.thumbsUp ∧ r2.thumbsDown = r.thumbsDown + 1 := by
  refine ⟨{ incNew r "like" with userVotes := votesSet r.userVotes u "like" },
    { incNew (decOld { incNew r "like" with
        userVotes := votesSet r.userVotes u "like" } "like") "dislike" with
      userVotes := votesSet (votesSet r.userVotes u "like") u "dislike" },
    by simp [usefulnessCore, hget],
    by simp [usefulnessCore, votesGet_set_self],
    votesGet_set_self _ _ _, ?_, ?_⟩
  · simp [incNew_thumbsUp, decOld_thumbsUp]
  · simp [incNew_thumbsDown, decOld_thumbsDown]

/-- Concrete instance of the switch law on the all-zero review. -/
theorem switch_like_dislike_check :
    ∃ r1 r2, usefulnessCore sampleReview "u1" "like" = .ok r1 ∧
      usefulnessCore r1 "u1" "dislike" = .ok r2 ∧
      votesGet r2.userVotes "u1" = some "dislike" ∧
      r2.thumbsUp = sampleReview.thumbsUp ∧
      r2.thumbsDown = sampleReview.thumbsDown + 1 :=
  switch_like_dislike sampleReview "u1" rfl

/-- Claim C8: the simple-increment endpoint is an independent second
operation: on an existing review, `like` bumps `thumbsUp` by exactly 1 and
`dislike` bumps `thumbsDown` by exactly 1, in both cases leaving
`userVotes` (and the other counter) untouched, and any other `voteType`
fails with `InvalidInput` and changes nothing. -/
theorem simple_vote_increments (store : List Review) (rid : String)
    (review : Review)
    (hfind : store.find? (fun r => r.id = rid) = some review) :
    (∃ r1, simpleVoteHandler store rid (some "like") = .ok r1 ∧
      r1.thumbsUp = review.thumbsUp + 1 ∧ r1.thumbsDown = review.thumbsDown ∧
      r1.userVotes = review.userVotes) ∧
    (∃ r1, simpleVoteHandler store rid (some "dislike") = .ok r1 ∧
      r1.thumbsUp = review.thumbsUp ∧ r1.thumbsDown = review.thumbsDown + 1 ∧
      r1.userVotes = review.userVotes) ∧
    (∀ v : Option String, v ≠ some "like" → v ≠ some "dislike" →
      simpleVoteHandler store rid v = .error .invalidInput) := by
  refine ⟨⟨{ review with thumbsUp := review.thumbsUp + 1 },
      by simp [simpleVoteHandler, hfind], rfl, rfl, rfl⟩,
    ⟨{ review with thumbsDown := review.thumbsDown + 1 },
      by simp [simpleVoteHandler, hfind], rfl, rfl, rfl⟩, ?_⟩
  intro v h1 h2
  simp [simpleVoteHandler, hfind, h1, h2]

/-- Concrete instance: `voteType` `"smash"` on an existing review is
rejected as invalid input. -/
theorem simple_vote_increments_check :
    simpleVoteHandler [sampleReview] "r1" (some "smash") =
      .error .invalidInput :=
  (simple_vote_increments [sampleReview] "r1" sampleReview (by decide)).2.2
    (some "smash") (by decide) (by decide)

/-- Claim C9 counterexample: a submission supplying every required field,
with `rating` 0, is rejected with `InvalidInput` instead of creating a
review: the source's falsy test `!rating` cannot tell a supplied 0 from a
missing field. -/
theorem create_review_rejects_zero_rating :
    createReviewHandler "id1" (some "t") (some "c") (some "p") (some 0) =
      .error .invalidInput := by rfl

/-- Claim C9 (amended): creation fails with `InvalidInput`, creating
nothing, when a required field is missing or JavaScript-falsy (`""` for
`title`/`content`/`product`, `0` for `rating`); when all four are supplied
and truthy, the review is created with both counters 0 and no votes. -/
theorem create_review_validation (id : String)
    (title content product : Option String) (rating : Option Int) :
    ((falsyStr title = true ∨ falsyStr content = true ∨
        falsyNum rating = true ∨ falsyStr product = true) →
      createReviewHandler id title content product rating =
        .error .invalidInput) ∧
    (falsyStr title = false → falsyStr content = false →
      falsyNum rating = false → falsyStr product = false →
      ∃ r, createReviewHandler id title content product rating = .ok r ∧
        r.thumbsUp = 0 ∧ r.thumbsDown = 0 ∧ r.userVotes = []) := by
  constructor
  · intro h
    have hcond : (falsyStr title || falsyStr content || falsyNum rating ||
        falsyStr product) = true := by
      rcases h with h | h | h | h <;> simp [h]
    unfold createReviewHandler
    rw [if_pos hcond]
  · intro h1 h2 h3 h4
    have hcond : (falsyStr title || falsyStr content || falsyNum rating ||
        falsyStr product) = false := by
      rw [h1, h2, h3, h4]; rfl
    refine ⟨mkReview id (title.getD "") (content.getD "") (product.getD "")
      (rating.getD 0), ?_, rfl, rfl, rfl⟩
    unfold createReviewHandler
    rw [if_neg (by rw [hcond]; exact Bool.false_ne_true)]

/-- Concrete instance: a submission missing `title` is rejected. -/
theorem create_review_validation_check :
    createReviewHandler "id2" none (some "c") (some "p") (some 5) =
      .error .invalidInput :=
  (create_review_validation "id2" none (some "c") (some "p") (some 5)).1
    (Or.inl rfl)

/-- Claim C10 (frame property): a successful usefulness vote by `u` can
change only `thumbsUp`, `thumbsDown` and `u`'s own entry of `userVotes`;
`id`, `title`, `content`, `rating`, `productName`, `reviewType` and every
other user's entry are unchanged. -/
theorem usefulness_frame (r r' : Review) (u t : String)
    (hok : usefulnessCore r u t = .ok r') :
    r'.id = r.id ∧ r'.title = r.title ∧ r'.content = r.content ∧
    r'.rating = r.rating ∧ r'.productName = r.productName ∧
    r'.reviewType = r.reviewType ∧
    ∀ u', u' ≠ u → votesGet r'.userVotes u' = votesGet r.userVotes u' := by
  rcases usefulnessCore_ok_shape r r' u t hok with
    ⟨cv, hget, hne, hr⟩ | ⟨cv, hget, hr⟩ | ⟨hget, hr⟩ <;> subst hr
  · obtain ⟨f1, f2, f3, f4, f5, f6, f7⟩ := decOld_frame r cv
    exact ⟨f1, f2, f3, f4, f5, f6,
      fun u' hu => votesGet_delete_ne _ _ _ hu⟩
  · obtain ⟨g1, g2, g3, g4, g5, g6, g7⟩ := incNew_frame (decOld r cv) t
    obtain ⟨f1, f2, f3, f4, f5, f6, f7⟩ := decOld_frame r cv
    exact ⟨g1.trans f1, g2.trans f2, g3.trans f3, g4.trans f4, g5.trans f5,
      g6.trans f6, fun u' hu => votesGet_set_ne _ _ _ _ hu⟩
  · obtain ⟨g1, g2, g3, g4, g5, g6, g7⟩ := incNew_frame r t
    exact ⟨g1, g2, g3, g4, g5, g6,
      fun u' hu => votesGet_set_ne _ _ _ _ hu⟩

/-- Concrete instance: after `"u3"` likes `likedReview`, `"u2"`'s entry is
exactly what it was before. -/
theorem usefulness_frame_check :
    votesGet ({ likedReview with
        thumbsUp := 2,
        userVotes := [("u2", "like"), ("u3", "like")] } : Review).userVotes
      "u2" = votesGet likedReview.userVotes "u2" :=
  (usefulness_frame likedReview
    { likedReview with
      thumbsUp := 2,
      userVotes := [("u2", "like"), ("u3", "like")] }
    "u3" "like" (by decide)).2.2.2.2.2.2 "u2" (by decide)
